import Mathlib

/-!
Shallow embedding of `bedrock-rag-llm/steps/create_and_sync_knowledge_base.py`
(and the constants it imports from `bedrock-rag-llm/constants.py`).

External cloud calls (OpenSearch Serverless, Bedrock agent API) are modelled
as oracles: each step function takes the outcomes the remote API would return
and computes exactly what the Python control flow does with them, including
the Python-level failure modes (unbound locals, attribute errors on exception
objects, subscripting `None`).
-/

namespace BedrockRag

/-! ## Constants (`constants.py` and module-level code of the step file) -/

def AWS_REGION : String := "us-east-1"

def AWS_CUSTOM_MODEL_BUCKET_NAME : String := "bedrock-zenml-rag-docs"

def AWS_BEDROCK_KB_EXECUTION_ROLE_ARN : String :=
  "AmazonBedrockExecutionRoleForKnowledgeBase_392"

/-- Module-level `suffix = 392` (module level; the random draw is commented out). -/
def suffix : Nat := 392

/-- Module-level `vector_store_name = f"bedrock-vectordb-rag-{suffix}"`. -/
def vector_store_name : String := "bedrock-vectordb-rag-" ++ toString suffix

/-- Module-level `index_name = f"bedrock-vectordb-rag-index-{suffix}"`. -/
def index_name : String := "bedrock-vectordb-rag-index-" ++ toString suffix

/-! ## Collection provisioner (`create_aoss_collection`) -/

/-- The `createCollectionDetail` payload of a successful
`aoss_client.create_collection` call. -/
structure CollectionDetail where
  id : String
  arn : String
  deriving DecidableEq, Repr

/-- One entry of `collections["collectionSummaries"]` as returned by
`aoss_client.list_collections(maxResults=15)`. -/
structure CollectionSummary where
  name : String
  id : String
  arn : String
  deriving DecidableEq, Repr

/-- A Python exception as far as the handler inspects it:
either a botocore-style client error carrying `response["Error"]["Code"]`,
or an exception with no `response` structure at all. -/
inductive AwsErr where
  | clientErr (code : String)
  | plainErr
  deriving DecidableEq, Repr

/-- Outcome of the `aoss_client.create_collection` call. -/
inductive CreateCollOutcome where
  | ok (detail : CollectionDetail)
  | raised (e : AwsErr)
  deriving DecidableEq, Repr

/-- How an invocation of the `create_aoss_collection` step ends. -/
inductive AossResult where
  /-- normal return of the `(host, collection_id, collection_arn)` triple -/
  | ok (host : String) (collection_id : String) (collection_arn : String)
  /-- the path `raise ValueError(f"Collection {vector_store_name} not found") from err` -/
  | valueError (msg : String)
  /-- evaluating `collection["id"]` with `collection = None`:
  a `TypeError` (subscripting `None`) -/
  | typeErrorNoneSubscript
  /-- reading a local variable that was never assigned on this path:
  `UnboundLocalError` -/
  | unboundLocal (var : String)
  /-- evaluating `err.response` on an exception object without a `response` attribute:
  `AttributeError` raised inside the handler -/
  | attributeError
  /-- the original exception propagating out of the step unchanged -/
  | reraised (e : AwsErr)
  deriving DecidableEq, Repr

/-- Host endpoint `host = f"{collection_id}.{AWS_REGION}.aoss.amazonaws.com"`. -/
def hostOf (collection_id : String) : String :=
  collection_id ++ "." ++ AWS_REGION ++ ".aoss.amazonaws.com"

/-- Shallow embedding of the body of `create_aoss_collection`
(lines 119–147).  `createOut` is what `aoss_client.create_collection`
does; `summaries` is what `aoss_client.list_collections(maxResults=15)`
returns in the fallback path.

Control-flow notes, faithful to the source:
* on a `ConflictException`, `collection_id = collection["id"]` (line 138)
  runs BEFORE the `if collection is None` check (line 139), so when no
  summary matches by name the step dies subscripting `None` and the
  `ValueError` on line 140 is unreachable;
* on a client error with any other code the handler body is skipped and
  execution falls through to line 144, where `collection_id` was never
  assigned;
* on an exception with no `response` attribute, `err.response` itself
  raises inside the handler. -/
def create_aoss_collection (createOut : CreateCollOutcome)
    (summaries : List CollectionSummary) : AossResult :=
  match createOut with
  | .ok d => .ok (hostOf d.id) d.id d.arn
  | .raised .plainErr => .attributeError
  | .raised (.clientErr code) =>
    if code = "ConflictException" then
      match summaries.find? (fun c => c.name = vector_store_name) with
      | some c => .ok (hostOf c.id) c.id c.arn
      | none => .typeErrorNoneSubscript
    else
      .unboundLocal "collection_id"

/-! ## Index provisioner (`create_vector_index`) -/

/-- Whether `needle` occurs as a contiguous substring of `hay`
(the Python `in` operator on strings). -/
def strContains (hay needle : String) : Bool :=
  (List.range (hay.data.length + 1)).any
    (fun i => needle.data.isPrefixOf (hay.data.drop i))

/-- Outcome of the `oss_client.indices.create` call: either the API
response, or an exception whose `str(err)` is recorded. -/
inductive IdxCreateOutcome where
  | ok (response : String)
  | raised (errStr : String)
  deriving DecidableEq, Repr

/-- Shallow embedding of the try/except around `oss_client.indices.create`
in `create_vector_index` (lines 195–210): success returns the response,
an error whose text contains `resource_already_exists_exception` returns
`None`, any other error is re-raised unchanged. -/
def create_vector_index (createOut : IdxCreateOutcome) :
    Except String (Option String) :=
  match createOut with
  | .ok response => .ok (some response)
  | .raised errStr =>
    if strContains errStr "resource_already_exists_exception" then
      .ok none
    else
      .error errStr

/-- Local `index_name = f"bedrock-sample-index-{suffix}"`: the local variable in
`create_vector_index` (line 162) that shadows the module-level name. -/
def create_vector_index_local_index_name : String :=
  "bedrock-sample-index-" ++ toString suffix

/-! ## Retry wrapper (`create_knowledge_base_func`)

`@retry(wait_random_min=1000, wait_random_max=2000, stop_max_attempt_number=3)`
from the `retrying` library: on any exception re-invoke the wrapped function,
stopping after `stop_max_attempt_number` total attempts (the last error is
then re-raised), sleeping a uniformly random number of milliseconds in
`[wait_random_min, wait_random_max]` between attempts.  The randomness is
modelled by an arbitrary draw function, reduced into the interval the same
way a uniform integer draw is. -/

/-- One retry run: `attempts i` is what the wrapped call does on its
`i`-th invocation (1-based); `remaining` counts further attempts allowed
after the current one.  Returns the final outcome, the number of attempts
made, and the list of waits (milliseconds) slept between attempts. -/
def retryGo (waitMin span : Nat) (draw : Nat → Nat)
    (attempts : Nat → Except String String) :
    Nat → Nat → List Nat → Except String String × Nat × List Nat
  | i, 0, ws => (attempts i, i, ws.reverse)
  | i, remaining + 1, ws =>
    match attempts i with
    | .ok a => (.ok a, i, ws.reverse)
    | .error _ =>
      retryGo waitMin span draw attempts (i + 1) remaining
        ((waitMin + draw i % span) :: ws)

/-- Embedding of `create_knowledge_base_func` under its decorator, with the wrapped body
treated as an oracle `attempts` (per-invocation outcome of the underlying
`create_knowledge_base` API call) and `draw` the random source:
`wait_random_min=1000`, `wait_random_max=2000` (span 1001 inclusive values),
`stop_max_attempt_number=3` (first attempt plus 2 retries). -/
def create_knowledge_base_func (draw : Nat → Nat)
    (attempts : Nat → Except String String) :
    Except String String × Nat × List Nat :=
  retryGo 1000 1001 draw attempts 1 2 []

/-! ## Orchestrator (`create_and_sync_knowledge_base`) -/

/-- The `opensearchServerlessConfiguration` dict (lines 222–230). -/
structure StorageConfig where
  collectionArn : String
  vectorIndexName : String
  vectorField : String
  textField : String
  metadataField : String
  deriving DecidableEq, Repr

/-- The `chunkingStrategyConfiguration` dict (lines 236–242). -/
structure ChunkingConfig where
  chunkingStrategy : String
  maxTokens : Nat
  overlapPercentage : Nat
  deriving DecidableEq, Repr

/-- One call the step issues against the Bedrock agent API, with the
knowledge-base id it passes. -/
inductive ApiCall where
  | createKnowledgeBase (name : String)
  | getKnowledgeBase (kbId : String)
  | createDataSource (kbId : String) (chunking : ChunkingConfig)
  | getDataSource (kbId dsId : String)
  | startIngestionJob (kbId dsId : String)
  | getIngestionJob (kbId dsId jobId : String)
  deriving DecidableEq, Repr

/-- The knowledge-base id a call carries, when it carries one. -/
def ApiCall.kbIdUsed : ApiCall → Option String
  | .createKnowledgeBase _ => none
  | .getKnowledgeBase kbId => some kbId
  | .createDataSource kbId _ => some kbId
  | .getDataSource kbId _ => some kbId
  | .startIngestionJob kbId _ => some kbId
  | .getIngestionJob kbId _ _ => some kbId

/-- The `"bedrock_rag"` mapping passed to `log_model_metadata`
(lines 317–335). -/
structure Metadata where
  knowledge_base_id : String
  knowledge_base_name : String
  data_source_id : String
  ingestion_job_id : String
  ingestion_job_status : String
  vector_store_name : String
  vector_store_id : String
  chunking_strategy : String
  max_tokens : Nat
  overlap_percentage : Nat
  deriving DecidableEq, Repr

/-- What the remote Bedrock agent API answers during one step run:
the data-source id `create_data_source` hands back, the ingestion job id
and initial status from `start_ingestion_job`, and the status the k-th
`get_ingestion_job` call reports (k counted from 0). -/
structure SyncEnv where
  dataSourceId : String
  ingestionJobId : String
  startStatus : String
  getStatus : Nat → String

/-- The polling loop (lines 305–313): while the last observed status is not
`"COMPLETE"`, fetch the job again.  `fuel` bounds the number of further
fetches so the embedding is total; `fetched` counts fetches already made.
Returns `(finalStatus, totalFetches)` when the loop exits within `fuel`
fetches, `none` when it is still spinning. -/
def pollIngestion (getStatus : Nat → String) :
    Nat → Nat → String → Option (String × Nat)
  | fuel, fetched, status =>
    if status = "COMPLETE" then some (status, fetched)
    else
      match fuel with
      | 0 => none
      | f + 1 => pollIngestion getStatus f (fetched + 1) (getStatus fetched)

/-- Shallow embedding of the body of `create_and_sync_knowledge_base`
(lines 214–337).  Produces the list of Bedrock agent calls issued, the
storage configuration built, the metadata record logged and the returned
knowledge-base id — or `none` when the polling loop is still running after
`fuel` status fetches.

The `create_knowledge_base_func` call (lines 254–263) is commented out in
the source; `kb_id` is the literal `"FFXX2JSM7L"` (line 265). -/
def create_and_sync_knowledge_base (collection_arn collection_id : String)
    (env : SyncEnv) (fuel : Nat) :
    Option (List ApiCall × StorageConfig × Metadata × String) :=
  let storage : StorageConfig :=
    { collectionArn := collection_arn
      vectorIndexName := index_name
      vectorField := "vector"
      textField := "text"
      metadataField := "text-metadata" }
  let chunking_strategy := "FIXED_SIZE"
  let max_tokens := 512
  let overlap_percentage := 20
  let chunking : ChunkingConfig :=
    { chunkingStrategy := chunking_strategy
      maxTokens := max_tokens
      overlapPercentage := overlap_percentage }
  let name := "bedrock-sample-knowledge-base-" ++ toString suffix
  let kb_id := "FFXX2JSM7L"
  let dsId := env.dataSourceId
  let jobId := env.ingestionJobId
  match pollIngestion env.getStatus fuel 0 env.startStatus with
  | none => none
  | some (finalStatus, fetches) =>
    let calls :=
      [ApiCall.getKnowledgeBase kb_id,
       ApiCall.createDataSource kb_id chunking,
       ApiCall.getDataSource kb_id dsId,
       ApiCall.startIngestionJob kb_id dsId] ++
      (List.range fetches).map (fun _ => ApiCall.getIngestionJob kb_id dsId jobId)
    let md : Metadata :=
      { knowledge_base_id := kb_id
        knowledge_base_name := name
        data_source_id := dsId
        ingestion_job_id := jobId
        ingestion_job_status := finalStatus
        vector_store_name := vector_store_name
        vector_store_id := collection_id
        chunking_strategy := chunking_strategy
        max_tokens := max_tokens
        overlap_percentage := overlap_percentage }
    some (calls, storage, md, kb_id)

/-- Whether a call is a `get_ingestion_job` status fetch. -/
def ApiCall.isGetIngestionJob : ApiCall → Bool
  | .getIngestionJob _ _ _ => true
  | _ => false

/-! ## Concrete instantiations used to exercise the embedding -/

/-- Status answers of the mocked job whose observed sequence (start call
followed by the successive get calls) is
STARTING, IN_PROGRESS, IN_PROGRESS, COMPLETE. -/
def c2Status : Nat → String
  | 0 => "IN_PROGRESS"
  | 1 => "IN_PROGRESS"
  | _ => "COMPLETE"

/-- An environment whose job completes on the first status fetch. -/
def envQuick : SyncEnv :=
  { dataSourceId := "ds-1"
    ingestionJobId := "job-1"
    startStatus := "STARTING"
    getStatus := fun _ => "COMPLETE" }

/-- The call trace of a run against `envQuick` with one status fetch. -/
def callsQ : List ApiCall :=
  [ApiCall.getKnowledgeBase "FFXX2JSM7L",
   ApiCall.createDataSource "FFXX2JSM7L"
     { chunkingStrategy := "FIXED_SIZE", maxTokens := 512,
       overlapPercentage := 20 },
   ApiCall.getDataSource "FFXX2JSM7L" "ds-1",
   ApiCall.startIngestionJob "FFXX2JSM7L" "ds-1",
   ApiCall.getIngestionJob "FFXX2JSM7L" "ds-1" "job-1"]

/-- The storage configuration of a run with collection ARN `arn-1`. -/
def storageQ : StorageConfig :=
  { collectionArn := "arn-1", vectorIndexName := index_name,
    vectorField := "vector", textField := "text",
    metadataField := "text-metadata" }

/-- The metadata record of a completed run against `envQuick`. -/
def mdQ : Metadata :=
  { knowledge_base_id := "FFXX2JSM7L",
    knowledge_base_name := "bedrock-sample-knowledge-base-" ++ toString suffix,
    data_source_id := "ds-1",
    ingestion_job_id := "job-1",
    ingestion_job_status := "COMPLETE",
    vector_store_name := vector_store_name,
    vector_store_id := "cid-1",
    chunking_strategy := "FIXED_SIZE",
    max_tokens := 512,
    overlap_percentage := 20 }

/-- A degenerate random source. -/
def drawW : Nat → Nat := fun _ => 500

/-- A wrapped creation call that fails twice and succeeds on attempt 3. -/
def attemptsW : Nat → Except String String :=
  fun i => if i = 3 then .ok "kb" else .error "transient"

/-- The collection detail the first provisioning run created. -/
def origDetail : CollectionDetail := { id := "cid-1", arn := "arn-1" }

/-- The listing a second run sees: the first run collection is present. -/
def summariesW : List CollectionSummary :=
  [{ name := vector_store_name, id := "cid-1", arn := "arn-1" }]

/-! ## Helper lemmas -/

theorem pollIngestion_complete (g : Nat → String) (fuel fetched : Nat) :
    pollIngestion g fuel fetched "COMPLETE" = some ("COMPLETE", fetched) := by
  cases fuel <;> simp [pollIngestion]

theorem pollIngestion_succ (g : Nat → String) (fuel fetched : Nat) (s : String)
    (hs : s ≠ "COMPLETE") :
    pollIngestion g (fuel + 1) fetched s =
      pollIngestion g fuel (fetched + 1) (g fetched) := by
  simp [pollIngestion, hs]

theorem pollIngestion_stuck (g : Nat → String) (hg : ∀ k, g k ≠ "COMPLETE") :
    ∀ fuel fetched s, s ≠ "COMPLETE" → pollIngestion g fuel fetched s = none := by
  intro fuel
  induction fuel with
  | zero => intro fetched s hs; simp [pollIngestion, hs]
  | succ n ih =>
    intro fetched s hs
    rw [pollIngestion_succ g n fetched s hs]
    exact ih (fetched + 1) (g fetched) (hg fetched)

theorem retryGo_zero (wm sp : Nat) (d : Nat → Nat)
    (a : Nat → Except String String) (i : Nat) (ws : List Nat) :
    retryGo wm sp d a i 0 ws = (a i, i, ws.reverse) := by
  simp [retryGo]

theorem retryGo_ok (wm sp : Nat) (d : Nat → Nat)
    (a : Nat → Except String String) (i rem : Nat) (ws : List Nat)
    (v : String) (h : a i = .ok v) :
    retryGo wm sp d a i (rem + 1) ws = (.ok v, i, ws.reverse) := by
  simp [retryGo, h]

theorem retryGo_err (wm sp : Nat) (d : Nat → Nat)
    (a : Nat → Except String String) (i rem : Nat) (ws : List Nat)
    (e : String) (h : a i = .error e) :
    retryGo wm sp d a i (rem + 1) ws =
      retryGo wm sp d a (i + 1) rem ((wm + d i % sp) :: ws) := by
  simp [retryGo, h]

theorem retryGo_attempts_le (wm sp : Nat) (d : Nat → Nat)
    (a : Nat → Except String String) :
    ∀ rem i ws, (retryGo wm sp d a i rem ws).2.1 ≤ i + rem := by
  intro rem
  induction rem with
  | zero => intro i ws; simp [retryGo]
  | succ n ih =>
    intro i ws
    cases h : a i with
    | ok v => rw [retryGo_ok wm sp d a i n ws v h]; exact Nat.le_add_right i (n + 1)
    | error e =>
      rw [retryGo_err wm sp d a i n ws e h]
      have := ih (i + 1) ((wm + d i % sp) :: ws)
      omega

theorem retryGo_waits (wm sp : Nat) (d : Nat → Nat)
    (a : Nat → Except String String) (P : Nat → Prop)
    (hP : ∀ i, P (wm + d i % sp)) :
    ∀ rem i ws, (∀ w ∈ ws, P w) →
      ∀ w ∈ (retryGo wm sp d a i rem ws).2.2, P w := by
  intro rem
  induction rem with
  | zero =>
    intro i ws hws w hw
    rw [retryGo_zero] at hw
    exact hws w (List.mem_reverse.mp hw)
  | succ n ih =>
    intro i ws hws w hw
    cases h : a i with
    | ok v =>
      rw [retryGo_ok wm sp d a i n ws v h] at hw
      exact hws w (List.mem_reverse.mp hw)
    | error e =>
      rw [retryGo_err wm sp d a i n ws e h] at hw
      refine ih (i + 1) ((wm + d i % sp) :: ws) ?_ w hw
      intro u hu
      rcases List.mem_cons.mp hu with h1 | h2
      · exact h1 ▸ hP i
      · exact hws u h2

/-- Inversion of a successful `create_and_sync_knowledge_base` run: the call
trace, storage configuration, metadata record and returned id are forced by
the polling result. -/
theorem create_and_sync_some (arn cid : String) (env : SyncEnv) (fuel : Nat)
    (calls : List ApiCall) (storage : StorageConfig) (md : Metadata)
    (ret : String)
    (h : create_and_sync_knowledge_base arn cid env fuel =
      some (calls, storage, md, ret)) :
    ∃ st k, pollIngestion env.getStatus fuel 0 env.startStatus = some (st, k) ∧
      calls =
        [ApiCall.getKnowledgeBase "FFXX2JSM7L",
         ApiCall.createDataSource "FFXX2JSM7L"
           { chunkingStrategy := "FIXED_SIZE", maxTokens := 512,
             overlapPercentage := 20 },
         ApiCall.getDataSource "FFXX2JSM7L" env.dataSourceId,
         ApiCall.startIngestionJob "FFXX2JSM7L" env.dataSourceId] ++
        (List.range k).map
          (fun _ => ApiCall.getIngestionJob "FFXX2JSM7L" env.dataSourceId
            env.ingestionJobId) ∧
      storage =
        { collectionArn := arn, vectorIndexName := index_name,
          vectorField := "vector", textField := "text",
          metadataField := "text-metadata" } ∧
      md =
        { knowledge_base_id := "FFXX2JSM7L",
          knowledge_base_name := "bedrock-sample-knowledge-base-" ++ toString suffix,
          data_source_id := env.dataSourceId,
          ingestion_job_id := env.ingestionJobId,
          ingestion_job_status := st,
          vector_store_name := vector_store_name,
          vector_store_id := cid,
          chunking_strategy := "FIXED_SIZE",
          max_tokens := 512,
          overlap_percentage := 20 } ∧
      ret = "FFXX2JSM7L" := by
  unfold create_and_sync_knowledge_base at h
  cases hp : pollIngestion env.getStatus fuel 0 env.startStatus with
  | none => rw [hp] at h; exact absurd h (by simp)
  | some p =>
    obtain ⟨st, k⟩ := p
    rw [hp] at h
    simp only [Option.some.injEq, Prod.mk.injEq] at h
    obtain ⟨hcalls, hstorage, hmd, hret⟩ := h
    exact ⟨st, k, rfl, hcalls.symm, hstorage.symm, hmd.symm, hret.symm⟩

/-! ## Claim theorems -/

/-- C1: on a `ConflictException` with no listed collection matching
`vector_store_name`, `create_aoss_collection` does NOT fail with a
`ValueError` naming the resource: the assignment `collection_id =
collection["id"]` (line 138) subscripts `None` before the `None` check on
line 139 is reached, so the run dies with a `TypeError` and the
`ValueError` branch is dead code.  This evaluates the embedding at the
failing input of the claim. -/
theorem C1_conflict_no_match_dead_value_error :
    create_aoss_collection
        (.raised (.clientErr "ConflictException")) [] =
      .typeErrorNoneSubscript ∧
    ∀ msg, create_aoss_collection
        (.raised (.clientErr "ConflictException")) [] ≠ .valueError msg := by
  refine ⟨rfl, fun msg => ?_⟩
  simp [create_aoss_collection]

/-- C4: `create_vector_index` returns no new index content (`.ok none`)
exactly when the create call raised an error whose text contains
`resource_already_exists_exception`; any other error is re-raised
unchanged; a successful create call returns the API response. -/
theorem C4_index_create_already_exists (out : IdxCreateOutcome) :
    (∀ r, out = .ok r → create_vector_index out = .ok (some r)) ∧
    (create_vector_index out = .ok none ↔
      ∃ m, out = .raised m ∧
        strContains m "resource_already_exists_exception" = true) ∧
    (∀ m, out = .raised m →
      strContains m "resource_already_exists_exception" = false →
      create_vector_index out = .error m) := by
  refine ⟨?_, ⟨?_, ?_⟩, ?_⟩
  · rintro r rfl; rfl
  · intro h
    cases out with
    | ok r => simp [create_vector_index] at h
    | raised m =>
      refine ⟨m, rfl, ?_⟩
      cases hsc : strContains m "resource_already_exists_exception" with
      | true => rfl
      | false => simp [create_vector_index, hsc] at h
  · rintro ⟨m, rfl, hm⟩
    simp [create_vector_index, hm]
  · rintro m rfl hm
    simp [create_vector_index, hm]

/-- Witness for C4: a concrete already-exists error yields `.ok none`, a
concrete other error is re-raised unchanged, a concrete success returns
the response. -/
theorem C4_index_create_already_exists_witness :
    create_vector_index (.raised "resource_already_exists_exception") =
      .ok none ∧
    create_vector_index (.raised "boom") = .error "boom" ∧
    create_vector_index (.ok "acknowledged") = .ok (some "acknowledged") := by
  refine ⟨?_, ?_, ?_⟩
  · exact (C4_index_create_already_exists _).2.1.mpr ⟨_, rfl, by decide⟩
  · exact (C4_index_create_already_exists _).2.2 _ rfl (by decide)
  · exact (C4_index_create_already_exists _).1 _ rfl

/-- C5: provisioning is idempotent — when the create call raises a
`ConflictException` and the listing finds a collection with the desired
name carrying the identifiers of the original creation, the step returns
exactly the `(host, collection_id, collection_arn)` triple that the
original creation returned. -/
theorem C5_idempotent_conflict_fallback (d : CollectionDetail)
    (summaries : List CollectionSummary) (c : CollectionSummary)
    (hfind : summaries.find? (fun s => s.name = vector_store_name) = some c)
    (hid : c.id = d.id) (harn : c.arn = d.arn) :
    create_aoss_collection (.raised (.clientErr "ConflictException"))
        summaries =
      create_aoss_collection (.ok d) summaries := by
  simp [create_aoss_collection, hfind, hid, harn]

/-- Witness for C5: a second run whose listing contains the first run's
collection resolves to the first run's triple. -/
theorem C5_idempotent_conflict_fallback_witness :
    create_aoss_collection (.raised (.clientErr "ConflictException"))
        summariesW =
      create_aoss_collection (.ok origDetail) summariesW :=
  C5_idempotent_conflict_fallback origDetail summariesW
    { name := vector_store_name, id := "cid-1", arn := "arn-1" }
    (by simp [summariesW]) rfl rfl

/-- C9 counterexample: for an exception with no response structure the step
does NOT fail afterwards on the unbound local `collection_id` — the
handler itself dies with an `AttributeError` at `err.response`. -/
theorem C9_counterexample_plain_error :
    create_aoss_collection (.raised .plainErr) [] = .attributeError ∧
    create_aoss_collection (.raised .plainErr) [] ≠
      .unboundLocal "collection_id" := by
  exact ⟨rfl, by decide⟩

/-- C9 amended: when the create call raises a client error whose code is
not `ConflictException`, the handler falls through without re-raising or
assigning and the step fails afterwards reading the unbound local
`collection_id`; when the exception carries no response structure, the
handler itself fails with an attribute error at `err.response`; in no
case does the original exception propagate out as itself. -/
theorem C9_non_conflict_error_swallowed (code : String)
    (summaries : List CollectionSummary)
    (hcode : code ≠ "ConflictException") :
    create_aoss_collection (.raised (.clientErr code)) summaries =
      .unboundLocal "collection_id" ∧
    (∀ s, create_aoss_collection (.raised .plainErr) s = .attributeError) ∧
    (∀ e s, create_aoss_collection (.raised e) s ≠ .reraised e) := by
  refine ⟨by simp [create_aoss_collection, hcode], fun s => rfl, ?_⟩
  intro e s
  cases e with
  | plainErr => simp [create_aoss_collection]
  | clientErr c =>
    simp only [create_aoss_collection]
    split
    · cases hf : s.find? (fun x => x.name = vector_store_name) <;> simp [hf]
    · simp

/-- C2: for the mocked status sequence STARTING, IN_PROGRESS, IN_PROGRESS,
COMPLETE, the polling loop performs exactly one `get_ingestion_job` fetch
per non-terminal status (three fetches), exits after observing COMPLETE,
and the persisted metadata has `ingestion_job_status = "COMPLETE"` — for
any fuel of at least three fetches. -/
theorem C2_poll_sequence_three_fetches (dsId jobId arn cid : String)
    (extra : Nat) :
    create_and_sync_knowledge_base arn cid
        { dataSourceId := dsId, ingestionJobId := jobId,
          startStatus := "STARTING", getStatus := c2Status }
        (extra + 3) =
      some
        ([ApiCall.getKnowledgeBase "FFXX2JSM7L",
          ApiCall.createDataSource "FFXX2JSM7L"
            { chunkingStrategy := "FIXED_SIZE", maxTokens := 512,
              overlapPercentage := 20 },
          ApiCall.getDataSource "FFXX2JSM7L" dsId,
          ApiCall.startIngestionJob "FFXX2JSM7L" dsId,
          ApiCall.getIngestionJob "FFXX2JSM7L" dsId jobId,
          ApiCall.getIngestionJob "FFXX2JSM7L" dsId jobId,
          ApiCall.getIngestionJob "FFXX2JSM7L" dsId jobId],
         { collectionArn := arn, vectorIndexName := index_name,
           vectorField := "vector", textField := "text",
           metadataField := "text-metadata" },
         { knowledge_base_id := "FFXX2JSM7L",
           knowledge_base_name :=
             "bedrock-sample-knowledge-base-" ++ toString suffix,
           data_source_id := dsId,
           ingestion_job_id := jobId,
           ingestion_job_status := "COMPLETE",
           vector_store_name := vector_store_name,
           vector_store_id := cid,
           chunking_strategy := "FIXED_SIZE",
           max_tokens := 512,
           overlap_percentage := 20 },
         "FFXX2JSM7L") := by
  have hpoll : pollIngestion c2Status (extra + 3) 0 "STARTING" =
      some ("COMPLETE", 3) :=
    calc pollIngestion c2Status (extra + 3) 0 "STARTING"
        = pollIngestion c2Status (extra + 2) 1 (c2Status 0) :=
          pollIngestion_succ c2Status (extra + 2) 0 "STARTING" (by decide)
      _ = pollIngestion c2Status (extra + 1) 2 (c2Status 1) :=
          pollIngestion_succ c2Status (extra + 1) 1 (c2Status 0) (by decide)
      _ = pollIngestion c2Status extra 3 (c2Status 2) :=
          pollIngestion_succ c2Status extra 2 (c2Status 1) (by decide)
      _ = some ("COMPLETE", 3) := pollIngestion_complete c2Status extra 3
  simp only [create_and_sync_knowledge_base, hpoll]
  rfl

/-- C3: the polling loop terminates only on COMPLETE — for every status
sequence in which COMPLETE never occurs (such as one stuck at FAILED),
the loop never exits however many fetches it is allowed, and the workflow
never records success (no metadata, no returned id). -/
theorem C3_no_complete_never_terminates (g : Nat → String) (s0 : String)
    (h0 : s0 ≠ "COMPLETE") (hg : ∀ k, g k ≠ "COMPLETE") :
    ∀ fuel, pollIngestion g fuel 0 s0 = none ∧
      ∀ arn cid dsId jobId,
        create_and_sync_knowledge_base arn cid
          { dataSourceId := dsId, ingestionJobId := jobId,
            startStatus := s0, getStatus := g } fuel = none := by
  intro fuel
  have hpoll : pollIngestion g fuel 0 s0 = none :=
    pollIngestion_stuck g hg fuel 0 s0 h0
  refine ⟨hpoll, fun arn cid dsId jobId => ?_⟩
  simp only [create_and_sync_knowledge_base, hpoll]

/-- Witness for C3: a job stuck at FAILED never lets the loop exit. -/
theorem C3_no_complete_never_terminates_witness :
    pollIngestion (fun _ => "FAILED") 7 0 "FAILED" = none ∧
    create_and_sync_knowledge_base "arn-1" "cid-1"
      { dataSourceId := "ds-1", ingestionJobId := "job-1",
        startStatus := "FAILED", getStatus := fun _ => "FAILED" } 7 = none := by
  have hne : ("FAILED" : String) ≠ "COMPLETE" := by decide
  have h := C3_no_complete_never_terminates (fun _ => "FAILED") "FAILED"
    hne (fun _ => hne) 7
  exact ⟨h.1, h.2 "arn-1" "cid-1" "ds-1" "job-1"⟩

/-- C6: the retry wrapper retries on any exception up to 3 total attempts
with a randomized wait of 1000–2000 ms between attempts: when the wrapped
call fails on attempts 1 and 2 and succeeds on attempt 3, the wrapper
returns the successful result after exactly 3 attempts; for every possible
behaviour of the wrapped call at most 3 attempts are made; every wait
slept lies in the interval from 1 to 2 seconds. -/
theorem C6_retry_three_attempts (draw : Nat → Nat)
    (a : Nat → Except String String) (e1 e2 v : String)
    (h1 : a 1 = .error e1) (h2 : a 2 = .error e2) (h3 : a 3 = .ok v) :
    (create_knowledge_base_func draw a).1 = .ok v ∧
    (create_knowledge_base_func draw a).2.1 = 3 ∧
    (∀ b : Nat → Except String String,
      (create_knowledge_base_func draw b).2.1 ≤ 3) ∧
    (∀ w ∈ (create_knowledge_base_func draw a).2.2,
      1000 ≤ w ∧ w ≤ 2000) := by
  have hrun : create_knowledge_base_func draw a =
      (.ok v, 3, [1000 + draw 1 % 1001, 1000 + draw 2 % 1001]) :=
    calc create_knowledge_base_func draw a
        = retryGo 1000 1001 draw a 1 2 [] := rfl
      _ = retryGo 1000 1001 draw a 2 1 [1000 + draw 1 % 1001] :=
          retryGo_err 1000 1001 draw a 1 1 [] e1 h1
      _ = retryGo 1000 1001 draw a 3 0
            [1000 + draw 2 % 1001, 1000 + draw 1 % 1001] :=
          retryGo_err 1000 1001 draw a 2 0 [1000 + draw 1 % 1001] e2 h2
      _ = (a 3, 3, [1000 + draw 1 % 1001, 1000 + draw 2 % 1001]) :=
          retryGo_zero 1000 1001 draw a 3
            [1000 + draw 2 % 1001, 1000 + draw 1 % 1001]
      _ = (.ok v, 3, [1000 + draw 1 % 1001, 1000 + draw 2 % 1001]) := by
          rw [h3]
  refine ⟨by rw [hrun], by rw [hrun], ?_, ?_⟩
  · intro b
    exact retryGo_attempts_le 1000 1001 draw b 2 1 []
  · refine retryGo_waits 1000 1001 draw a
      (fun w => 1000 ≤ w ∧ w ≤ 2000) (fun i => ?_) 2 1 [] (by simp)
    have hm : draw i % 1001 < 1001 := Nat.mod_lt (draw i) (by decide)
    omega

/-- Witness for C6: a call failing twice then succeeding. -/
theorem C6_retry_three_attempts_witness :
    (create_knowledge_base_func drawW attemptsW).1 = .ok "kb" ∧
    (create_knowledge_base_func drawW attemptsW).2.1 = 3 ∧
    (∀ b : Nat → Except String String,
      (create_knowledge_base_func drawW b).2.1 ≤ 3) ∧
    (∀ w ∈ (create_knowledge_base_func drawW attemptsW).2.2,
      1000 ≤ w ∧ w ≤ 2000) :=
  C6_retry_three_attempts drawW attemptsW "transient" "transient" "kb"
    rfl rfl rfl

/-- Witness for C9: a concrete non-conflict client error. -/
theorem C9_non_conflict_error_swallowed_witness :
    create_aoss_collection
        (.raised (.clientErr "ValidationException")) [] =
      .unboundLocal "collection_id" ∧
    (∀ s, create_aoss_collection (.raised .plainErr) s = .attributeError) ∧
    (∀ e s, create_aoss_collection (.raised e) s ≠ .reraised e) :=
  C9_non_conflict_error_swallowed "ValidationException" [] (by decide)

/-- C7: whatever metadata record a successful run persists carries the
chunking parameters unmodified — strategy FIXED_SIZE, 512 max tokens, 20
percent overlap — and the data-source creation call in the trace was
issued with exactly those values. -/
theorem C7_chunking_metadata_unmodified (arn cid : String) (env : SyncEnv)
    (fuel : Nat) (calls : List ApiCall) (storage : StorageConfig)
    (md : Metadata) (ret : String)
    (h : create_and_sync_knowledge_base arn cid env fuel =
      some (calls, storage, md, ret)) :
    md.chunking_strategy = "FIXED_SIZE" ∧ md.max_tokens = 512 ∧
    md.overlap_percentage = 20 ∧
    ApiCall.createDataSource md.knowledge_base_id
      { chunkingStrategy := md.chunking_strategy,
        maxTokens := md.max_tokens,
        overlapPercentage := md.overlap_percentage } ∈ calls := by
  obtain ⟨st, k, hp, hcalls, hstorage, hmd, hret⟩ :=
    create_and_sync_some arn cid env fuel calls storage md ret h
  subst hmd
  subst hcalls
  refine ⟨rfl, rfl, rfl, ?_⟩
  simp

/-- Witness for C7: the metadata of a concrete completed run. -/
theorem C7_chunking_metadata_unmodified_witness :
    mdQ.chunking_strategy = "FIXED_SIZE" ∧ mdQ.max_tokens = 512 ∧
    mdQ.overlap_percentage = 20 ∧
    ApiCall.createDataSource mdQ.knowledge_base_id
      { chunkingStrategy := mdQ.chunking_strategy,
        maxTokens := mdQ.max_tokens,
        overlapPercentage := mdQ.overlap_percentage } ∈ callsQ :=
  C7_chunking_metadata_unmodified "arn-1" "cid-1" envQuick 1 callsQ
    storageQ mdQ "FFXX2JSM7L" rfl

/-- C8: the knowledge-base id is pinned — every successful run returns the
constant `FFXX2JSM7L`, records it in the metadata, passes it to every
knowledge-base, data-source and ingestion-job call it issues, and never
invokes the retryable creation call. -/
theorem C8_pinned_knowledge_base_id (arn cid : String) (env : SyncEnv)
    (fuel : Nat) (calls : List ApiCall) (storage : StorageConfig)
    (md : Metadata) (ret : String)
    (h : create_and_sync_knowledge_base arn cid env fuel =
      some (calls, storage, md, ret)) :
    ret = "FFXX2JSM7L" ∧
    md.knowledge_base_id = "FFXX2JSM7L" ∧
    (∀ call ∈ calls, call.kbIdUsed = some "FFXX2JSM7L") ∧
    (∀ n, ApiCall.createKnowledgeBase n ∉ calls) := by
  obtain ⟨st, k, hp, hcalls, hstorage, hmd, hret⟩ :=
    create_and_sync_some arn cid env fuel calls storage md ret h
  subst hcalls
  subst hmd
  subst hret
  refine ⟨rfl, rfl, ?_, ?_⟩
  · intro call hc
    rcases List.mem_append.mp hc with hl | hr
    · simp only [List.mem_cons, List.not_mem_nil, or_false] at hl
      rcases hl with rfl | rfl | rfl | rfl <;> rfl
    · obtain ⟨i, hi, rfl⟩ := List.mem_map.mp hr
      rfl
  · intro n hmem
    rcases List.mem_append.mp hmem with hl | hr
    · simp at hl
    · obtain ⟨i, hi, he⟩ := List.mem_map.mp hr
      exact ApiCall.noConfusion he

/-- Witness for C8: a concrete completed run. -/
theorem C8_pinned_knowledge_base_id_witness :
    ("FFXX2JSM7L" : String) = "FFXX2JSM7L" ∧
    mdQ.knowledge_base_id = "FFXX2JSM7L" ∧
    (∀ call ∈ callsQ, call.kbIdUsed = some "FFXX2JSM7L") ∧
    (∀ n, ApiCall.createKnowledgeBase n ∉ callsQ) :=
  C8_pinned_knowledge_base_id "arn-1" "cid-1" envQuick 1 callsQ storageQ
    mdQ "FFXX2JSM7L" rfl

/-- C10: the index name `create_vector_index` actually creates (the local
`bedrock-sample-index-392`, shadowing the module-level name) never equals
the `vectorIndexName` the workflow registers in the knowledge-base storage
configuration (the module-level `bedrock-vectordb-rag-index-392`). -/
theorem C10_registered_index_never_created (arn cid : String)
    (env : SyncEnv) (fuel : Nat) (calls : List ApiCall)
    (storage : StorageConfig) (md : Metadata) (ret : String)
    (h : create_and_sync_knowledge_base arn cid env fuel =
      some (calls, storage, md, ret)) :
    storage.vectorIndexName = index_name ∧
    create_vector_index_local_index_name ≠ storage.vectorIndexName := by
  obtain ⟨st, k, hp, hcalls, hstorage, hmd, hret⟩ :=
    create_and_sync_some arn cid env fuel calls storage md ret h
  subst hstorage
  refine ⟨rfl, ?_⟩
  show create_vector_index_local_index_name ≠ index_name
  decide

/-- Witness for C10: the storage configuration of a concrete run. -/
theorem C10_registered_index_never_created_witness :
    storageQ.vectorIndexName = index_name ∧
    create_vector_index_local_index_name ≠ storageQ.vectorIndexName :=
  C10_registered_index_never_created "arn-1" "cid-1" envQuick 1 callsQ
    storageQ mdQ "FFXX2JSM7L" rfl

end BedrockRag
